import Mathlib

/-!
Verification of the text-to-sql-agent repository: a shallow embedding of
`src/query_validator.py`, `src/query_cache.py`, `src/conversation.py` and
`src/agent.py` into Lean, together with theorems settling the specification
claims about them.

Strings are modelled as `List Char` (Python `str`).  Python string methods
(`upper`, `lower`, `strip`, `count`, `replace`, `in`, `startswith`) and the
few regular expressions the code uses (`\b KEYWORD \b` word-boundary search
and `FROM\s+(\w+)` / `JOIN\s+(\w+)` findall) are translated character by
character for the ASCII strings the program manipulates.
-/

/-- Characters stripped by Python `str.strip()` (ASCII whitespace). -/
def isSpaceChar (c : Char) : Bool :=
  c = ' ' || c = '\t' || c = '\n' || c = '\x0d' || c = '\x0b' || c = '\x0c'

/-- Word characters of the regex class `\w` (ASCII): letters, digits, `_`. -/
def isWordChar (c : Char) : Bool :=
  ('A' ≤ c && c ≤ 'Z') || ('a' ≤ c && c ≤ 'z') || ('0' ≤ c && c ≤ '9') || c = '_'

/-- ASCII uppercase of one character (Python `str.upper` on ASCII text). -/
def asciiUpperChar (c : Char) : Char :=
  if 'a' ≤ c && c ≤ 'z' then Char.ofNat (c.toNat - 32) else c

/-- ASCII lowercase of one character (Python `str.lower` on ASCII text). -/
def asciiLowerChar (c : Char) : Char :=
  if 'A' ≤ c && c ≤ 'Z' then Char.ofNat (c.toNat + 32) else c

/-- Python `s.upper()` (ASCII). -/
def pyUpper (s : List Char) : List Char := s.map asciiUpperChar

/-- Python `s.lower()` (ASCII). -/
def pyLower (s : List Char) : List Char := s.map asciiLowerChar

/-- Python `s.strip()`: drop leading and trailing whitespace. -/
def pyStrip (s : List Char) : List Char :=
  ((s.dropWhile isSpaceChar).reverse.dropWhile isSpaceChar).reverse

/-- Python `pat in s`: substring containment. -/
def containsSub (pat : List Char) : List Char → Bool
  | [] => pat.isEmpty
  | c :: rest => pat.isPrefixOf (c :: rest) || containsSub pat rest

/-- Auxiliary scanner for `countOccs`: `skip` positions still inside a
previous match are passed over, giving Python's non-overlapping count. -/
def countOccsAux (pat : List Char) : Nat → List Char → Nat
  | _, [] => 0
  | n + 1, _ :: rest => countOccsAux pat n rest
  | 0, c :: rest =>
    if pat.isPrefixOf (c :: rest) then 1 + countOccsAux pat (pat.length - 1) rest
    else countOccsAux pat 0 rest

/-- Python `s.count(pat)`: non-overlapping occurrences, scanning left to
right (for an empty pattern Python returns `len(s) + 1`). -/
def countOccs (pat s : List Char) : Nat :=
  if pat.isEmpty then s.length + 1 else countOccsAux pat 0 s

/-- Auxiliary scanner for `pyRemoveAll`: positions inside a match are
consumed without being emitted. -/
def pyRemoveAllAux (pat : List Char) : Nat → List Char → List Char
  | _, [] => []
  | n + 1, _ :: rest => pyRemoveAllAux pat n rest
  | 0, c :: rest =>
    if pat.isPrefixOf (c :: rest) then pyRemoveAllAux pat (pat.length - 1) rest
    else c :: pyRemoveAllAux pat 0 rest

/-- Python `s.replace(pat, '')`: delete every non-overlapping occurrence of
`pat`, scanning left to right. -/
def pyRemoveAll (pat s : List Char) : List Char :=
  if pat.isEmpty then s else pyRemoveAllAux pat 0 s

/-- A word boundary holds before the scan position: either start of string
(`none`) or the previous character is not a word character. -/
def boundaryBefore : Option Char → Bool
  | none => true
  | some c => !isWordChar c

/-- A word boundary holds after the matched keyword: end of string or the
next character is not a word character. -/
def boundaryAfter : List Char → Bool
  | [] => true
  | c :: _ => !isWordChar c

/-- The keyword matches at the head of `s` with word boundaries on both
sides (`prev` is the character just before the scan position). -/
def wholeWordAt (kw : List Char) (prev : Option Char) (s : List Char) : Bool :=
  boundaryBefore prev && kw.isPrefixOf s && boundaryAfter (s.drop kw.length)

/-- Scanner for `containsWholeWord`, carrying the previous character. -/
def containsWholeWordAux (kw : List Char) : Option Char → List Char → Bool
  | prev, [] => wholeWordAt kw prev []
  | prev, c :: rest => wholeWordAt kw prev (c :: rest) || containsWholeWordAux kw (some c) rest

/-- Python `re.search(r'\b' + kw + r'\b', s) is not None`: the keyword
occurs somewhere in `s` delimited by word boundaries. -/
def containsWholeWord (kw s : List Char) : Bool :=
  containsWholeWordAux kw none s

/-- Python `'\n'.join(parts)` generalised to any separator. -/
def joinWith (sep : List Char) : List (List Char) → List Char
  | [] => []
  | [x] => x
  | x :: y :: rest => x ++ sep ++ joinWith sep (y :: rest)

/-- Python `xs[-n:]` for `n = maxElems` (for `n = 0` Python keeps the whole
list, since `xs[-0:]` is `xs[0:]`). -/
def pySliceLast (maxElems : Nat) (xs : List α) : List α :=
  if maxElems = 0 then xs else xs.drop (xs.length - maxElems)

/-- Decimal digits of a natural number (Python f-string interpolation of an
`int`). -/
def natChars (n : Nat) : List Char := (Nat.repr n).data

/-! ## QueryValidator (`src/query_validator.py`)

The validator's non-blocking outputs (the `warnings` list built from the
SQL-injection / missing-LIMIT / `SELECT *` patterns) never affect
`is_valid` or the blocking error message and are not modelled; `validate`
here returns the `(is_valid, error_message)` projection of the Python
triple. -/

/-- The list `QueryValidator.DANGEROUS_KEYWORDS`. -/
def DANGEROUS_KEYWORDS : List (List Char) :=
  [ "DROP".data, "DELETE".data, "TRUNCATE".data, "ALTER".data, "CREATE".data,
    "INSERT".data, "UPDATE".data, "GRANT".data, "REVOKE".data, "EXEC".data,
    "EXECUTE".data, "CALL".data, "MERGE".data ]

/-- Python `sql_query.upper().strip()` — the normalised query the checks run on. -/
def normalizeQuery (sql : List Char) : List Char := pyStrip (pyUpper sql)

/-- Error message of the emptiness check. -/
def emptyMsg : List Char := "Query is empty".data

/-- Error message of the length check. -/
def lengthMsg (maxLen : Nat) : List Char :=
  "Query exceeds maximum length of ".data ++ natChars maxLen ++ " characters".data

/-- Error message of the denylisted-keyword check. -/
def dangerousMsg (kw : List Char) : List Char :=
  "Dangerous operation detected: ".data ++ kw ++ ". Only SELECT queries are allowed.".data

/-- Error message of the SELECT/WITH-prefix check. -/
def startMsg : List Char :=
  "Query must start with SELECT or WITH (for Common Table Expressions)".data

/-- Error message of the balanced-parenthesis check. -/
def parenMsg : List Char := "Unbalanced parentheses in query".data

/-- The first denylisted keyword (in declaration order) occurring in the
normalised query as a whole word — the keyword whose message the loop in
`validate` reports. -/
def firstDangerous (sql : List Char) : Option (List Char) :=
  DANGEROUS_KEYWORDS.find? (fun kw => containsWholeWord kw (normalizeQuery sql))

/-- Python `c in s` counting for a single character (`sql_query.count('(')`). -/
def countChar (c : Char) (s : List Char) : Nat := (s.filter (fun d => d = c)).length

/-- The normalised query starts with `SELECT` or `WITH`. -/
def startsWithSelectOrWith (normalized : List Char) : Bool :=
  ("SELECT".data).isPrefixOf normalized || ("WITH".data).isPrefixOf normalized

/-- Method `QueryValidator.validate`, blocking part: the sequence of checks from
the source, each returning `(False, message)` on failure, and `(True, "")`
when all pass. -/
def QueryValidator.validate (maxLen : Nat) (sql : List Char) : Bool × List Char :=
  if sql.isEmpty || (pyStrip sql).isEmpty then (false, emptyMsg)
  else if maxLen < sql.length then (false, lengthMsg maxLen)
  else
    match firstDangerous sql with
    | some kw => (false, dangerousMsg kw)
    | none =>
      if !startsWithSelectOrWith (normalizeQuery sql) then (false, startMsg)
      else if countChar '(' sql ≠ countChar ')' sql then (false, parenMsg)
      else (true, [])

/-- Method `QueryValidator._estimate_complexity`: the weighted score accumulated
exactly as in the source, then mapped through the tier thresholds. -/
def QueryValidator.estimateComplexity (sql : List Char) : List Char :=
  let normalized := pyUpper sql
  let s0 : Nat := 0
  let s1 := if containsSub "JOIN".data normalized then s0 + countOccs "JOIN".data normalized * 2 else s0
  let s2 := if 1 < countOccs "SELECT".data normalized then s1 + 3 else s1
  let s3 := if containsSub "GROUP BY".data normalized then s2 + 2 else s2
  let score :=
    if ["COUNT".data, "SUM".data, "AVG".data].any (fun f => containsSub f normalized)
    then s3 + 1 else s3
  if score = 0 then "Simple".data
  else if score ≤ 3 then "Moderate".data
  else if score ≤ 6 then "Complex".data
  else "Very Complex".data

/-! ## QueryCache (`src/query_cache.py`)

The two tiers (`memory_cache` dict and the `.cache` directory of JSON
files) are modelled as finite maps from cache keys to entries.  The MD5
digest of `_get_cache_key` is replaced by its pre-image string — the model
assumes no hash collisions, so distinct pre-images give distinct keys.
Disk reads and writes, which the source wraps in `try/except` blocks that
fall through on failure, are modelled as always succeeding; the entry's
unused `metadata` dict is not modelled.  `time.time()` is an explicit
integer argument `now`. -/

/-- One cache entry, as serialised by `QueryCache.set`. -/
structure CacheEntry (α : Type) where
  timestamp : Int
  sql_query : List Char
  database : List Char
  data : α
  hit_count : Nat
  deriving Repr, DecidableEq

/-- The `QueryCache` state: the TTL and the two tiers. -/
structure QueryCache (α : Type) where
  ttl_seconds : Int
  memory_cache : List Char → Option (CacheEntry α)
  disk_cache : List Char → Option (CacheEntry α)

/-- Constructor `QueryCache.__init__` with empty tiers. -/
def QueryCache.init (ttl : Int) : QueryCache α :=
  { ttl_seconds := ttl, memory_cache := fun _ => none, disk_cache := fun _ => none }

/-- Method `QueryCache._get_cache_key`: `f"{database}:{sql_query}".lower().strip()`
(digest replaced by pre-image). -/
def cacheKey (sql db : List Char) : List Char :=
  pyStrip (pyLower (db ++ ':' :: sql))

/-- Update one key of a map tier. -/
def mapUpdate (m : List Char → Option (CacheEntry α)) (key : List Char)
    (v : Option (CacheEntry α)) : List Char → Option (CacheEntry α) :=
  fun k => if k = key then v else m k

/-- Disk-tier half of `QueryCache.get`: consult the cache file, load a
fresh entry into memory, delete an expired file. -/
def QueryCache.getDisk (c : QueryCache α) (key : List Char) (now : Int) :
    Option α × QueryCache α :=
  match c.disk_cache key with
  | some entry =>
    if now - entry.timestamp < c.ttl_seconds then
      (some entry.data, { c with memory_cache := mapUpdate c.memory_cache key (some entry) })
    else
      (none, { c with disk_cache := mapUpdate c.disk_cache key none })
  | none => (none, c)

/-- Method `QueryCache.get`: memory tier first (bumping `hit_count` on a fresh
hit, deleting an expired entry), then the disk tier. -/
def QueryCache.get (c : QueryCache α) (sql db : List Char) (now : Int) :
    Option α × QueryCache α :=
  let key := cacheKey sql db
  match c.memory_cache key with
  | some entry =>
    if now - entry.timestamp < c.ttl_seconds then
      (some entry.data,
       { c with memory_cache :=
           mapUpdate c.memory_cache key (some { entry with hit_count := entry.hit_count + 1 }) })
    else
      QueryCache.getDisk { c with memory_cache := mapUpdate c.memory_cache key none } key now
  | none => QueryCache.getDisk c key now

/-- Method `QueryCache.set`: build the entry stamped `now` and store it in both
tiers. -/
def QueryCache.set (c : QueryCache α) (sql : List Char) (results : α)
    (db : List Char) (now : Int) : QueryCache α :=
  let key := cacheKey sql db
  let entry : CacheEntry α :=
    { timestamp := now, sql_query := sql, database := db, data := results, hit_count := 0 }
  { c with memory_cache := mapUpdate c.memory_cache key (some entry),
           disk_cache := mapUpdate c.disk_cache key (some entry) }

/-! ## ConversationHistory (`src/conversation.py`)

A message keeps the fields the claimed behaviour reads: `role`, `content`
and `sql_query`.  The `timestamp`, `metadata` and `result_count` fields and
the JSON session files (written by `_save_history`, re-read only on
construction) are not modelled. -/

/-- One conversation message. -/
structure Message where
  role : List Char
  content : List Char
  sql_query : Option (List Char)
  deriving Repr, DecidableEq

/-- The `'user'` role string. -/
def userRole : List Char := "user".data

/-- The `'assistant'` role string. -/
def assistantRole : List Char := "assistant".data

/-- Method `ConversationHistory.add_message`: append to the message list. -/
def addMessage (msgs : List Message) (role content : List Char)
    (sql : Option (List Char)) : List Message :=
  msgs ++ [{ role := role, content := content, sql_query := sql }]

/-- The line `get_context` contributes for one message: `"User asked: …"`
for user messages, `"Generated SQL: …"` for assistant messages whose
`sql_query` is truthy (present and non-empty), nothing otherwise. -/
def contextLine (m : Message) : Option (List Char) :=
  if m.role = userRole then some ("User asked: ".data ++ m.content)
  else if m.role = assistantRole then
    match m.sql_query with
    | some q => if q.isEmpty then none else some ("Generated SQL: ".data ++ q)
    | none => none
  else none

/-- Method `ConversationHistory.get_context`: empty for an empty history,
otherwise the header line followed by the lines of the last
`maxMessages` messages, joined with newlines. -/
def ConversationHistory.getContext (msgs : List Message) (maxMessages : Nat) : List Char :=
  if msgs.isEmpty then []
  else
    joinWith "\n".data
      ("Previous conversation:".data :: (pySliceLast maxMessages msgs).filterMap contextLine)

/-- A successful match of the regex `PAT\s+(\w+)` at the head of `s`:
returns the captured word and the total number of characters consumed. -/
def tableRefAt (pat s : List Char) : Option (List Char × Nat) :=
  if pat.isPrefixOf s then
    let rest := s.drop pat.length
    let sp := rest.takeWhile isSpaceChar
    if sp.isEmpty then none
    else
      let rest2 := rest.drop sp.length
      let w := rest2.takeWhile isWordChar
      if w.isEmpty then none
      else some (w, pat.length + sp.length + w.length)
  else none

/-- Scanner for `findTableRefs`; `skip` counts positions still inside the
previous match (`re.findall` resumes after each match). -/
def findTableRefsAux (pat : List Char) : Nat → List Char → List (List Char)
  | _, [] => []
  | n + 1, _ :: rest => findTableRefsAux pat n rest
  | 0, c :: rest =>
    match tableRefAt pat (c :: rest) with
    | some (w, k) => w :: findTableRefsAux pat (k - 1) rest
    | none => findTableRefsAux pat 0 rest

/-- Python `re.findall(PAT + r'\s+(\w+)', s)`: every captured table name,
left to right, non-overlapping. -/
def findTableRefs (pat s : List Char) : List (List Char) :=
  findTableRefsAux pat 0 s

/-- Scanner for `dedupFirst`, carrying the names already seen. -/
def dedupFirstAux (seen : List (List Char)) : List (List Char) → List (List Char)
  | [] => []
  | x :: rest =>
    if seen.contains x then dedupFirstAux seen rest
    else x :: dedupFirstAux (x :: seen) rest

/-- First-occurrence deduplication, standing in for Python's `set` /
`list(...)` round trip (whose iteration order is unspecified; no claimed
behaviour depends on the order). -/
def dedupFirst (xs : List (List Char)) : List (List Char) :=
  dedupFirstAux [] xs

/-- Method `ConversationHistory.get_last_tables`: table names mentioned by
`FROM`/`JOIN` in the SQL of the last five messages, newest first. -/
def ConversationHistory.getLastTables (msgs : List Message) : List (List Char) :=
  dedupFirst
    (((pySliceLast 5 msgs).reverse).flatMap (fun m =>
      match m.sql_query with
      | some q =>
        if q.isEmpty then []
        else findTableRefs "FROM".data (pyUpper q) ++ findTableRefs "JOIN".data (pyUpper q)
      | none => []))

/-- The follow-up indicator substrings of `detect_follow_up`. -/
def followUpPatterns : List (List Char) :=
  [ "also".data, "too".data, "as well".data, "additionally".data,
    "what about".data, "how about".data, "and".data,
    "same".data, "those".data, "these".data, "that".data, "this".data,
    "more".data, "other".data, "another".data,
    "show me more".data, "tell me more".data,
    "previous".data, "last".data, "earlier".data ]

/-- Method `ConversationHistory.detect_follow_up`: false for an empty history,
otherwise true when any indicator occurs in the lowercased query. -/
def ConversationHistory.detectFollowUp (msgs : List Message) (query : List Char) : Bool :=
  if msgs.isEmpty then false
  else followUpPatterns.any (fun p => containsSub p (pyLower query))

/-- Method `ConversationHistory.enhance_query_with_context`: append the
table-context suffix to a detected follow-up when recent queries mention
tables, otherwise return the query unchanged. -/
def ConversationHistory.enhanceQueryWithContext (msgs : List Message) (query : List Char) :
    List Char :=
  if !ConversationHistory.detectFollowUp msgs query then query
  else
    match ConversationHistory.getLastTables msgs with
    | [] => query
    | tables =>
      query ++ " (Context: Previous query used tables: ".data
        ++ joinWith ", ".data tables ++ ")".data

/-! ## TextToSQLAgent (`src/agent.py`)

The orchestrator's external effects are oracles: the Glue-schema fetch,
the Bedrock `invoke_model` call behind `_generate_sql`, the explanation
text (whose generator `_explain_query` catches its own exceptions and
always returns a string) and the Athena executor.  Exceptions are `Except`
errors carrying the Python `str(e)` message.  The prompt assembled from
the enhanced query, schema context and conversation context is pure string
formatting that cannot raise; the model reply is a single oracle outcome,
so the prompt text itself is not reproduced.  Row results have an abstract
element type `ρ`.  The agent's state also records every SQL string handed
to the executor (`execLog`, with `execCalls` its length counter) so that
"the executor was (not) invoked" is observable.  The `query_info` entry of
the response dict (`QueryValidator.get_query_info`) and the `warnings`
list inside `validation` are not modelled; no claim reads them. -/

/-- Outcomes of the external stages used by one `query` call. -/
structure AgentOracles (ρ : Type) where
  schemaContext : Except (List Char) (List Char)
  invokeModel : Except (List Char) (List Char)
  explainText : List Char
  execQuery : List Char → Except (List Char) (List ρ)
  database : List Char
  now : Int

/-- Mutable attributes of the agent visible across a call. -/
structure AgentState (ρ : Type) where
  cache : Option (QueryCache (List ρ))
  messages : List Message
  execCalls : Nat
  execLog : List (List Char)

/-- The response dictionary of `TextToSQLAgent.query`; keys the code only
sometimes inserts are `Option` fields. -/
structure QueryResponse (ρ : Type) where
  natural_language_query : List Char
  sql_query : Option (List Char)
  executed : Option Bool
  database : Option (List Char)
  cached : Option Bool
  validation : Option (Bool × List Char)
  explanation : Option (List Char)
  results : Option (List ρ)
  row_count : Option Nat
  error : Option (List Char)

/-- A response carrying only the question — every other key absent. -/
def baseResponse (nlq : List Char) : QueryResponse ρ :=
  { natural_language_query := nlq, sql_query := none, executed := none,
    database := none, cached := none, validation := none, explanation := none,
    results := none, row_count := none, error := none }

/-- The cleanup `_generate_sql` applies to the model reply: strip, delete
the fence markers, strip again. -/
def cleanSQL (raw : List Char) : List Char :=
  pyStrip (pyRemoveAll "```".data (pyRemoveAll "```sql".data (pyStrip raw)))

/-- Method `TextToSQLAgent._generate_sql` given the `invoke_model` outcome:
propagate a Bedrock failure, otherwise clean the reply. -/
def generateSQLStep (invokeOutcome : Except (List Char) (List Char)) :
    Except (List Char) (List Char) :=
  match invokeOutcome with
  | Except.error e => Except.error e
  | Except.ok raw => Except.ok (cleanSQL raw)

/-- The message `f"Query validation failed: {error_msg}"` of the source. -/
def validationFailedMsg (err : List Char) : List Char :=
  "Query validation failed: ".data ++ err

/-- Execution tail of `query`: record the executor invocation, run it,
cache the rows when a cache is present, append the assistant message. -/
def runExec (o : AgentOracles ρ) (st : AgentState ρ) (msgs1 : List Message)
    (r : QueryResponse ρ) (sql : List Char) :
    Except (List Char) (QueryResponse ρ) × AgentState ρ :=
  let st2 := { st with execCalls := st.execCalls + 1, execLog := st.execLog ++ [sql] }
  match o.execQuery sql with
  | Except.error e => (Except.error e, st2)
  | Except.ok rows =>
    let st3 :=
      match st2.cache with
      | some c => { st2 with cache := some (QueryCache.set c sql rows o.database o.now) }
      | none => st2
    (Except.ok { r with results := some rows, row_count := some rows.length },
     { st3 with messages := addMessage msgs1 assistantRole [] (some sql) })

/-- The `try:` body of `TextToSQLAgent.query`, with the state reached so
far returned alongside the outcome (Python keeps attribute mutations made
before an exception). -/
def queryBody (o : AgentOracles ρ) (st : AgentState ρ) (nlq : List Char)
    (execute explainQ use_cache validateQ : Bool) :
    Except (List Char) (QueryResponse ρ) × AgentState ρ :=
  let msgs1 := addMessage st.messages userRole nlq none
  let st1 := { st with messages := msgs1 }
  let _enhanced := ConversationHistory.enhanceQueryWithContext msgs1 nlq
  match o.schemaContext with
  | Except.error e => (Except.error e, st1)
  | Except.ok _schema =>
    let _convContext := ConversationHistory.getContext msgs1 5
    match generateSQLStep o.invokeModel with
    | Except.error e => (Except.error e, st1)
    | Except.ok sql =>
      let r0 : QueryResponse ρ :=
        { natural_language_query := nlq, sql_query := some sql,
          executed := some execute, database := some o.database,
          cached := some false, validation := none, explanation := none,
          results := none, row_count := none, error := none }
      let vres := QueryValidator.validate 5000 sql
      let r1 := if validateQ then { r0 with validation := some vres } else r0
      if validateQ && !vres.fst then
        (Except.ok { r1 with error := some (validationFailedMsg vres.snd) },
         { st1 with messages := addMessage msgs1 assistantRole [] (some sql) })
      else
        let r2 := if explainQ then { r1 with explanation := some o.explainText } else r1
        if execute then
          match use_cache, st1.cache with
          | true, some c =>
            match QueryCache.get c sql o.database o.now with
            | (some rows, c2) =>
              (Except.ok { r2 with results := some rows, row_count := some rows.length,
                                   cached := some true },
               { st1 with cache := some c2,
                          messages := addMessage msgs1 assistantRole [] (some sql) })
            | (none, c2) => runExec o { st1 with cache := some c2 } msgs1 r2 sql
          | _, _ => runExec o st1 msgs1 r2 sql
        else
          (Except.ok r2, { st1 with messages := addMessage msgs1 assistantRole [] (some sql) })

/-- Method `TextToSQLAgent.query`: the `try/except` wrapper — an exception from
any stage becomes a response holding only the error message and the
original question, after logging an assistant message. -/
def TextToSQLAgent.query (o : AgentOracles ρ) (st : AgentState ρ) (nlq : List Char)
    (execute explainQ use_cache validateQ : Bool) :
    QueryResponse ρ × AgentState ρ :=
  match queryBody o st nlq execute explainQ use_cache validateQ with
  | (Except.ok r, st1) => (r, st1)
  | (Except.error e, st1) =>
    ({ baseResponse nlq with error := some e },
     { st1 with messages := addMessage st1.messages assistantRole [] none })

/-! ## Claim-side definitions and helper lemmas -/

/-- The tier thresholds named by the specification:
`0 → Simple`, `≤ 3 → Moderate`, `≤ 6 → Complex`, `> 6 → Very Complex`. -/
def complexityTierOf (score : Nat) : List Char :=
  if score = 0 then "Simple".data
  else if score ≤ 3 then "Moderate".data
  else if score ≤ 6 then "Complex".data
  else "Very Complex".data

/-- The aggregate functions of the claim, read as the repository reads
"aggregate function" elsewhere (`get_query_info`, the prompt): COUNT, SUM,
AVG, MIN, MAX. -/
def claimAggregates : List (List Char) :=
  [ "COUNT".data, "SUM".data, "AVG".data, "MIN".data, "MAX".data ]

/-- The weighted score exactly as claim C9 states it: +2 per JOIN
occurrence, +3 for more than one SELECT, +2 for GROUP BY, +1 for any
aggregate function. -/
def claimComplexityScore (sql : List Char) : Nat :=
  let n := pyUpper sql
  countOccs "JOIN".data n * 2
    + (if 1 < countOccs "SELECT".data n then 3 else 0)
    + (if containsSub "GROUP BY".data n then 2 else 0)
    + (if claimAggregates.any (fun f => containsSub f n) then 1 else 0)

/-- The weighted score the code computes: identical to the claim's except
that only COUNT, SUM and AVG count as aggregates. -/
def codeComplexityScore (sql : List Char) : Nat :=
  let n := pyUpper sql
  countOccs "JOIN".data n * 2
    + (if 1 < countOccs "SELECT".data n then 3 else 0)
    + (if containsSub "GROUP BY".data n then 2 else 0)
    + (if ["COUNT".data, "SUM".data, "AVG".data].any (fun f => containsSub f n) then 1 else 0)

/-- A pattern that occurs nowhere as a substring is counted zero times. -/
theorem countOccsAux_eq_zero {pat : List Char} :
    ∀ s : List Char, containsSub pat s = false → countOccsAux pat 0 s = 0 := by
  intro s
  induction s with
  | nil => intro _; rfl
  | cons c rest ih =>
    intro h
    unfold containsSub at h
    simp only [Bool.or_eq_false_iff] at h
    unfold countOccsAux
    rw [h.1]
    simp only [if_false, Bool.false_eq_true]
    exact ih h.2

/-- Python `s.count(pat)` is zero when `pat` is not a substring of `s`. -/
theorem countOccs_eq_zero {pat s : List Char} (h : containsSub pat s = false) :
    countOccs pat s = 0 := by
  have hp : pat.isEmpty = false := by
    cases s with
    | nil => simpa [containsSub] using h
    | cons c rest =>
      cases pat with
      | nil => simp [containsSub, List.isPrefixOf] at h
      | cons p ps => rfl
  unfold countOccs
  rw [hp]
  simp only [Bool.false_eq_true, if_false]
  exact countOccsAux_eq_zero s h

/-! ## Claim C1 -/

/-- C1: any SQL string containing a denylisted keyword as a whole word,
case-insensitively (expressed on the normalised — uppercased and
whitespace-trimmed — query, which trimming cannot affect), is rejected by
`QueryValidator.validate`; a keyword occurring only inside a longer
identifier does not trigger the check, so `"DELETE FROM orders"` is
blocked while `"SELECT name FROM delete_log"` is accepted. -/
theorem C1_denylisted_whole_word_blocks :
    (∀ (sql kw : List Char) (maxLen : Nat), kw ∈ DANGEROUS_KEYWORDS →
       containsWholeWord kw (normalizeQuery sql) = true →
       (QueryValidator.validate maxLen sql).fst = false)
    ∧ (QueryValidator.validate 5000 "DELETE FROM orders".data).fst = false
    ∧ (QueryValidator.validate 5000 "SELECT name FROM delete_log".data).fst = true := by
  refine ⟨?_, by decide, by decide⟩
  intro sql kw maxLen hmem hocc
  unfold QueryValidator.validate
  by_cases h1 : (sql.isEmpty || (pyStrip sql).isEmpty) = true
  · rw [if_pos h1]
  · rw [if_neg h1]
    by_cases h2 : maxLen < sql.length
    · rw [if_pos h2]
    · rw [if_neg h2]
      cases hfd : firstDangerous sql with
      | some k => rfl
      | none =>
        exfalso
        unfold firstDangerous at hfd
        exact (List.find?_eq_none.mp hfd kw hmem) hocc

/-- Witness for C1 at the claim's own example. -/
theorem C1_denylisted_whole_word_blocks_witness :
    "DELETE".data ∈ DANGEROUS_KEYWORDS
    ∧ containsWholeWord "DELETE".data (normalizeQuery "DELETE FROM orders".data) = true
    ∧ (QueryValidator.validate 5000 "DELETE FROM orders".data).fst = false :=
  ⟨by decide, by decide,
   C1_denylisted_whole_word_blocks.1 "DELETE FROM orders".data "DELETE".data 5000
     (by decide) (by decide)⟩

/-! ## Claim C9 -/

/-- C9 counterexample: `"SELECT MIN(PRICE) FROM PRODUCTS"` has an
aggregate function (MIN) and nothing else, so the claim's scoring gives
1 → "Moderate", but `_estimate_complexity` only counts COUNT/SUM/AVG and
returns "Simple". -/
theorem C9_complexity_tier_counterexample :
    QueryValidator.estimateComplexity "SELECT MIN(PRICE) FROM PRODUCTS".data = "Simple".data
    ∧ complexityTierOf (claimComplexityScore "SELECT MIN(PRICE) FROM PRODUCTS".data)
        = "Moderate".data
    ∧ ("Simple".data : List Char) ≠ "Moderate".data := by
  refine ⟨by decide, by decide, by decide⟩

/-- C9 amended: the tier is the claimed threshold mapping of the weighted
score with +2 per JOIN occurrence, +3 for more than one SELECT, +2 for
GROUP BY, and +1 when any of COUNT, SUM or AVG occurs (MIN and MAX alone
contribute nothing); the claim's two concrete examples hold. -/
theorem C9_amended_complexity_tiering :
    (∀ sql : List Char,
       QueryValidator.estimateComplexity sql = complexityTierOf (codeComplexityScore sql))
    ∧ QueryValidator.estimateComplexity
        "SELECT A FROM T1 JOIN T2 ON X JOIN T3 ON Y GROUP BY A".data = "Complex".data
    ∧ QueryValidator.estimateComplexity "SELECT NAME FROM CUSTOMERS".data = "Simple".data := by
  refine ⟨?_, by decide, by decide⟩
  intro sql
  unfold QueryValidator.estimateComplexity codeComplexityScore complexityTierOf
  cases hj : containsSub "JOIN".data (pyUpper sql) with
  | false =>
    have h0 : countOccs "JOIN".data (pyUpper sql) = 0 := countOccs_eq_zero hj
    by_cases hs : 1 < countOccs "SELECT".data (pyUpper sql) <;>
      by_cases hg : containsSub "GROUP BY".data (pyUpper sql) = true <;>
        by_cases ha : (["COUNT".data, "SUM".data, "AVG".data].any
            (fun f => containsSub f (pyUpper sql))) = true <;>
          simp [hj, hs, hg, ha] <;> (rw [h0]; simp)
  | true =>
    by_cases hs : 1 < countOccs "SELECT".data (pyUpper sql) <;>
      by_cases hg : containsSub "GROUP BY".data (pyUpper sql) = true <;>
        by_cases ha : (["COUNT".data, "SUM".data, "AVG".data].any
            (fun f => containsSub f (pyUpper sql))) = true <;>
          simp [hj, hs, hg, ha]

/-! ## Claim C4 -/

/-- C4: after `set(q, rows, scope)` at time `t`, a `get(q, scope)` at time
`t'` returns exactly `rows` while `t' − t < ttl` (the fresh memory entry
keeps the rows with its hit count bumped, the disk copy untouched); once
`t' − t ≥ ttl` the `get` returns `none` and the expired entry is deleted
from both the memory and the disk tier. -/
theorem C4_cache_set_get_roundtrip :
    ∀ (α : Type) (c : QueryCache α) (sql db : List Char) (rows : α) (t t' : Int),
      (QueryCache.get (QueryCache.set c sql rows db t) sql db t').fst
          = (if t' - t < c.ttl_seconds then some rows else none)
        ∧ (QueryCache.get (QueryCache.set c sql rows db t) sql db t').snd.memory_cache
            (cacheKey sql db)
          = (if t' - t < c.ttl_seconds
             then some { timestamp := t, sql_query := sql, database := db,
                         data := rows, hit_count := 1 }
             else none)
        ∧ (QueryCache.get (QueryCache.set c sql rows db t) sql db t').snd.disk_cache
            (cacheKey sql db)
          = (if t' - t < c.ttl_seconds
             then some { timestamp := t, sql_query := sql, database := db,
                         data := rows, hit_count := 0 }
             else none) := by
  intro α c sql db rows t t'
  unfold QueryCache.get QueryCache.set QueryCache.getDisk mapUpdate
  by_cases h : t' - t < c.ttl_seconds <;> simp [h]

/-! ## Claim C7 -/

/-- A join whose first part is non-empty is non-empty. -/
theorem joinWith_cons_ne_nil (sep h : List Char) (rest : List (List Char))
    (hh : h ≠ []) : joinWith sep (h :: rest) ≠ [] := by
  cases rest with
  | nil => simpa [joinWith] using hh
  | cons y ys =>
    unfold joinWith
    intro hc
    rcases List.append_eq_nil.mp hc with ⟨hc1, _⟩
    rcases List.append_eq_nil.mp hc1 with ⟨hc2, _⟩
    exact hh hc2

/-- A session holding one user message and no assistant turn at all. -/
def c7History : List Message :=
  [ { role := userRole, content := "hi".data, sql_query := none } ]

/-- C7 counterexample: for the one-user-message history with no assistant
turn, `get_context` returns the non-empty header plus the "User asked"
line, not the empty string. -/
theorem C7_context_counterexample :
    (c7History.all (fun m => m.role == userRole)) = true
      ∧ ConversationHistory.getContext c7History 5
        = "Previous conversation:\nUser asked: hi".data := by
  refine ⟨by decide, by decide⟩

/-- C7 amended: `get_context` returns the empty string exactly for an
empty message history; any non-empty history (in particular one with only
user messages) yields a non-empty context beginning with the header. -/
theorem C7_amended_context_empty_iff_no_messages :
    ∀ (msgs : List Message) (maxMessages : Nat),
      ConversationHistory.getContext msgs maxMessages = [] ↔ msgs = [] := by
  intro msgs maxM
  unfold ConversationHistory.getContext
  cases msgs with
  | nil => simp
  | cons m rest =>
    simp only [List.isEmpty_cons, Bool.false_eq_true, if_false]
    constructor
    · intro hc
      exact absurd hc
        (joinWith_cons_ne_nil "\n".data "Previous conversation:".data _ (by decide))
    · intro hc
      exact absurd hc (List.cons_ne_nil m rest)

/-! ## Claim C8 -/

/-- The prior SQL of the claim's scenario. -/
def c8PriorSQL : List Char :=
  "SELECT * FROM products WHERE category=\x27Electronics\x27".data

/-- The claim's session history: one user turn, then an assistant turn
carrying the prior SQL. -/
def c8History : List Message :=
  [ { role := userRole, content := "Show me electronics".data, sql_query := none },
    { role := assistantRole, content := [], sql_query := some c8PriorSQL } ]

/-- C8: with a prior assistant turn whose SQL selects from `products`,
the input "What about Furniture?" is detected as a follow-up and the
enhanced text appends the table-context suffix, containing the token
`products` (upper-cased by the extraction, so matched case-insensitively);
any input not detected as a follow-up is returned unchanged. -/
theorem C8_follow_up_enhancement :
    ConversationHistory.detectFollowUp c8History "What about Furniture?".data = true
      ∧ ConversationHistory.enhanceQueryWithContext c8History "What about Furniture?".data
        = "What about Furniture? (Context: Previous query used tables: PRODUCTS)".data
      ∧ containsSub "PRODUCTS".data
          (pyUpper (ConversationHistory.enhanceQueryWithContext c8History
            "What about Furniture?".data)) = true
      ∧ (∀ (msgs : List Message) (q : List Char),
          ConversationHistory.detectFollowUp msgs q = false →
          ConversationHistory.enhanceQueryWithContext msgs q = q) := by
  refine ⟨by decide, by decide, by decide, ?_⟩
  intro msgs q h
  unfold ConversationHistory.enhanceQueryWithContext
  rw [h]
  simp

/-- Witness for C8's universal part: a fresh session, where nothing is a
follow-up, leaves the query unchanged. -/
theorem C8_follow_up_enhancement_witness :
    ConversationHistory.detectFollowUp [] "List every customer".data = false
      ∧ ConversationHistory.enhanceQueryWithContext [] "List every customer".data
        = "List every customer".data :=
  ⟨by decide,
   C8_follow_up_enhancement.2.2.2 [] "List every customer".data (by decide)⟩

/-! ## Claim C5 -/

/-- One blocking check of the specification: when does it fail, and which
error message does it report. -/
structure BlockingCheck where
  fails : List Char → Bool
  message : List Char → List Char

/-- The five blocking checks in the specification's order: non-empty,
length, denylisted keyword (reporting the first matching keyword),
SELECT/WITH prefix, balanced parentheses. -/
def blockingChecks (maxLen : Nat) : List BlockingCheck :=
  [ { fails := fun s => s.isEmpty || (pyStrip s).isEmpty, message := fun _ => emptyMsg },
    { fails := fun s => decide (maxLen < s.length), message := fun _ => lengthMsg maxLen },
    { fails := fun s => (firstDangerous s).isSome,
      message := fun s => dangerousMsg ((firstDangerous s).getD []) },
    { fails := fun s => !startsWithSelectOrWith (normalizeQuery s), message := fun _ => startMsg },
    { fails := fun s => decide (countChar '(' s ≠ countChar ')' s),
      message := fun _ => parenMsg } ]

/-- Run a list of blocking checks in order, stopping at the first failure
and reporting its message; all passing yields `(true, "")`. -/
def runBlockingChecks (checks : List BlockingCheck) (s : List Char) : Bool × List Char :=
  match checks.find? (fun c => c.fails s) with
  | some c => (false, c.message s)
  | none => (true, [])

/-- C5: `validate` is exactly the short-circuiting run of the five
blocking checks in the fixed order non-empty, length, denylisted keyword,
SELECT/WITH prefix, balanced parentheses; and whenever it rejects, the
check-specific error message it reports is non-empty. -/
theorem C5_ordered_short_circuit_checks :
    ∀ (maxLen : Nat) (sql : List Char),
      QueryValidator.validate maxLen sql = runBlockingChecks (blockingChecks maxLen) sql
        ∧ ((QueryValidator.validate maxLen sql).fst = true
           ∨ (QueryValidator.validate maxLen sql).snd ≠ []) := by
  intro maxLen sql
  have hne : ∀ kw : List Char, dangerousMsg kw ≠ [] := by
    intro kw hc
    rcases List.append_eq_nil.mp hc with ⟨hc1, _⟩
    rcases List.append_eq_nil.mp hc1 with ⟨hc2, _⟩
    exact absurd hc2 (by decide)
  have hlen : lengthMsg maxLen ≠ [] := by
    intro hc
    rcases List.append_eq_nil.mp hc with ⟨hc1, _⟩
    rcases List.append_eq_nil.mp hc1 with ⟨hc2, _⟩
    exact absurd hc2 (by decide)
  unfold QueryValidator.validate runBlockingChecks blockingChecks
  by_cases h1 : (sql.isEmpty || (pyStrip sql).isEmpty) = true
  · rw [if_pos h1]
    simp [List.find?_cons, h1, emptyMsg]
  · rw [if_neg h1]
    by_cases h2 : maxLen < sql.length
    · rw [if_pos h2]
      simp only [List.find?_cons]
      rw [Bool.not_eq_true] at h1
      simp [h1, h2, hlen]
    · rw [if_neg h2]
      rw [Bool.not_eq_true] at h1
      cases hfd : firstDangerous sql with
      | some kw =>
        simp only [List.find?_cons]
        simp [h1, h2, hfd, hne]
      | none =>
        by_cases h4 : (!startsWithSelectOrWith (normalizeQuery sql)) = true
        · rw [if_pos h4]
          simp only [List.find?_cons]
          simp [h1, h2, hfd, h4, startMsg]
        · rw [if_neg h4]
          rw [Bool.not_eq_true] at h4
          by_cases h5 : countChar '(' sql ≠ countChar ')' sql
          · rw [if_pos h5]
            simp only [List.find?_cons]
            simp [h1, h2, hfd, h4, h5, parenMsg]
          · rw [if_neg h5]
            simp only [List.find?_cons]
            simp [h1, h2, hfd, h4, h5]

/-! ## Claim C3 -/

/-- C3: whenever the body of `query` raises (any stage returning an
exception — schema fetch, generation, execution), the orchestrator
catches it and returns a response dictionary holding exactly the error
message and the original natural-language question; no exception reaches
the caller (the wrapper is total). -/
theorem C3_exception_becomes_error_response :
    ∀ (ρ : Type) (o : AgentOracles ρ) (st : AgentState ρ) (nlq : List Char)
      (execute explainQ use_cache validateQ : Bool) (e : List Char) (st1 : AgentState ρ),
      queryBody o st nlq execute explainQ use_cache validateQ = (Except.error e, st1) →
      (TextToSQLAgent.query o st nlq execute explainQ use_cache validateQ).fst
        = { baseResponse nlq with error := some e } := by
  intro ρ o st nlq execute explainQ use_cache validateQ e st1 h
  unfold TextToSQLAgent.query
  rw [h]

/-- Oracles whose schema-fetch stage raises. -/
def c3Oracles : AgentOracles Nat :=
  { schemaContext := Except.error "Schema fetch failed".data,
    invokeModel := Except.ok "SELECT 1".data, explainText := [],
    execQuery := fun _ => Except.ok [], database := "db".data, now := 0 }

/-- An agent state with caching disabled and no history. -/
def emptyAgentState : AgentState Nat :=
  { cache := none, messages := [], execCalls := 0, execLog := [] }

/-- Witness for C3: a schema-fetch failure yields the two-field error
response echoing the question. -/
theorem C3_exception_becomes_error_response_witness :
    (TextToSQLAgent.query c3Oracles emptyAgentState "how many users".data
        true false true true).fst
      = { baseResponse "how many users".data with error := some "Schema fetch failed".data } :=
  C3_exception_becomes_error_response Nat c3Oracles emptyAgentState "how many users".data
    true false true true "Schema fetch failed".data
    { cache := none,
      messages := [{ role := userRole, content := "how many users".data, sql_query := none }],
      execCalls := 0, execLog := [] }
    rfl

/-! ## Claim C10 -/

/-- C10: with `validate=false` and `execute=true` (cache disabled so the
cache cannot short-circuit), no validation check runs — the response
carries no `validation` entry — and the generated SQL string, whatever it
contains, is handed verbatim to the external executor: the invocation
counter rises by one and the SQL is appended to the executor log. -/
theorem C10_no_validation_when_disabled :
    ∀ (ρ : Type) (o : AgentOracles ρ) (st : AgentState ρ) (nlq raw ctx : List Char)
      (explainQ use_cache : Bool),
      o.schemaContext = Except.ok ctx →
      o.invokeModel = Except.ok raw →
      st.cache = none →
      (TextToSQLAgent.query o st nlq true explainQ use_cache false).fst.validation = none
        ∧ (TextToSQLAgent.query o st nlq true explainQ use_cache false).snd.execCalls
          = st.execCalls + 1
        ∧ (TextToSQLAgent.query o st nlq true explainQ use_cache false).snd.execLog
          = st.execLog ++ [cleanSQL raw] := by
  intro ρ o st nlq raw ctx explainQ use_cache hschema hinvoke hcache
  unfold TextToSQLAgent.query queryBody generateSQLStep runExec
  rw [hschema, hinvoke]
  cases use_cache <;> rw [hcache] <;>
    cases hx : o.execQuery (cleanSQL raw) <;>
      cases explainQ <;> simp [hx, baseResponse]

/-- Oracles whose model reply is a DROP statement, for the C10 witness. -/
def c10Oracles : AgentOracles Nat :=
  { schemaContext := Except.ok "schema".data,
    invokeModel := Except.ok "DROP TABLE users".data, explainText := [],
    execQuery := fun _ => Except.ok [1], database := "db".data, now := 0 }

/-- Witness for C10: with validation off, even `DROP TABLE users` reaches
the executor, and no validation entry is produced. -/
theorem C10_no_validation_when_disabled_witness :
    (TextToSQLAgent.query c10Oracles emptyAgentState "remove the users".data
        true false true false).fst.validation = none
      ∧ (TextToSQLAgent.query c10Oracles emptyAgentState "remove the users".data
          true false true false).snd.execLog = ["DROP TABLE users".data] :=
  ⟨(C10_no_validation_when_disabled Nat c10Oracles emptyAgentState "remove the users".data
      "DROP TABLE users".data "schema".data false true rfl rfl rfl).1,
   (C10_no_validation_when_disabled Nat c10Oracles emptyAgentState "remove the users".data
      "DROP TABLE users".data "schema".data false true rfl rfl rfl).2.2.trans (by decide)⟩

/-! ## Claim C2 -/

/-- C2: on an `execute=true`, `use_cache=true` call where the cache holds
an unexpired entry for the generated SQL and the current database scope
(and validation, when enabled, passes the SQL, as it must have when the
entry was first cached), the response is served from the cache — `cached
= true` with the cached rows and their count — and the external executor
is never invoked: the invocation counter and executor log are unchanged. -/
theorem C2_cache_hit_short_circuits :
    ∀ (ρ : Type) (o : AgentOracles ρ) (st : AgentState ρ) (nlq raw ctx : List Char)
      (explainQ validateQ : Bool) (c c2 : QueryCache (List ρ)) (rows : List ρ),
      o.schemaContext = Except.ok ctx →
      o.invokeModel = Except.ok raw →
      st.cache = some c →
      QueryCache.get c (cleanSQL raw) o.database o.now = (some rows, c2) →
      (validateQ = false ∨ (QueryValidator.validate 5000 (cleanSQL raw)).fst = true) →
      (TextToSQLAgent.query o st nlq true explainQ true validateQ).fst.cached = some true
        ∧ (TextToSQLAgent.query o st nlq true explainQ true validateQ).fst.results = some rows
        ∧ (TextToSQLAgent.query o st nlq true explainQ true validateQ).fst.row_count
          = some rows.length
        ∧ (TextToSQLAgent.query o st nlq true explainQ true validateQ).snd.execCalls
          = st.execCalls
        ∧ (TextToSQLAgent.query o st nlq true explainQ true validateQ).snd.execLog
          = st.execLog := by
  intro ρ o st nlq raw ctx explainQ validateQ c c2 rows hschema hinvoke hcache hget hval
  unfold TextToSQLAgent.query queryBody generateSQLStep
  rw [hschema, hinvoke]
  have hvcond : (validateQ && !(QueryValidator.validate 5000 (cleanSQL raw)).fst) = false := by
    rcases hval with hv | hv
    · rw [hv]; rfl
    · rw [hv]; simp
  cases explainQ <;> simp [hcache, hget, hvcond]

/-- A cache pre-loaded at time 0 with the rows of `SELECT 1` under scope
`db`, for the C2 witness. -/
def c2Cache : QueryCache (List Nat) :=
  QueryCache.set (QueryCache.init 3600) "SELECT 1".data [42] "db".data 0

/-- Oracles for the C2 witness: the executor would fail if it were ever
invoked. -/
def c2Oracles : AgentOracles Nat :=
  { schemaContext := Except.ok "schema".data, invokeModel := Except.ok "SELECT 1".data,
    explainText := [], execQuery := fun _ => Except.error "executor invoked".data,
    database := "db".data, now := 5 }

/-- Agent state holding the pre-loaded cache, for the C2 witness. -/
def c2State : AgentState Nat :=
  { cache := some c2Cache, messages := [], execCalls := 0, execLog := [] }

/-- Witness for C2: five seconds after caching, the call is served from
the cache and the executor is never invoked. -/
theorem C2_cache_hit_short_circuits_witness :
    (TextToSQLAgent.query c2Oracles c2State "how many".data true false true false).fst.cached
        = some true
      ∧ (TextToSQLAgent.query c2Oracles c2State "how many".data
          true false true false).fst.results = some [42]
      ∧ (TextToSQLAgent.query c2Oracles c2State "how many".data
          true false true false).snd.execCalls = 0 :=
  ⟨(C2_cache_hit_short_circuits Nat c2Oracles c2State "how many".data "SELECT 1".data
      "schema".data false false c2Cache
      (QueryCache.get c2Cache "SELECT 1".data "db".data 5).snd [42]
      rfl rfl rfl rfl (Or.inl rfl)).1,
   (C2_cache_hit_short_circuits Nat c2Oracles c2State "how many".data "SELECT 1".data
      "schema".data false false c2Cache
      (QueryCache.get c2Cache "SELECT 1".data "db".data 5).snd [42]
      rfl rfl rfl rfl (Or.inl rfl)).2.1,
   (C2_cache_hit_short_circuits Nat c2Oracles c2State "how many".data "SELECT 1".data
      "schema".data false false c2Cache
      (QueryCache.get c2Cache "SELECT 1".data "db".data 5).snd [42]
      rfl rfl rfl rfl (Or.inl rfl)).2.2.2.1⟩

/-! ## Claim C6 -/

/-- C6 counterexample: a model reply consisting only of fence markers is
cleaned to the empty string and returned as a *successful* generation —
neither a non-empty statement nor an explicit generation error — so an
empty statement does flow downstream. -/
theorem C6_generation_counterexample :
    generateSQLStep (Except.ok "```sql\n```".data) = Except.ok ([] : List Char) := by
  rfl

/-- C6 amended: `_generate_sql` only strips fence markers and surrounding
whitespace and has no emptiness guard, so it can hand the empty statement
downstream (`sql_query = some ""`); it is the validator — when validation
is enabled — that rejects the empty statement ("Query is empty") before
any execution, leaving the executor uninvoked. -/
theorem C6_amended_empty_generation_blocked_by_validator :
    ∀ (ρ : Type) (o : AgentOracles ρ) (st : AgentState ρ) (nlq raw ctx : List Char)
      (execute explainQ use_cache : Bool),
      o.schemaContext = Except.ok ctx →
      o.invokeModel = Except.ok raw →
      cleanSQL raw = [] →
      (TextToSQLAgent.query o st nlq execute explainQ use_cache true).fst.sql_query
          = some []
        ∧ (TextToSQLAgent.query o st nlq execute explainQ use_cache true).fst.error
          = some (validationFailedMsg emptyMsg)
        ∧ (TextToSQLAgent.query o st nlq execute explainQ use_cache true).snd.execCalls
          = st.execCalls := by
  intro ρ o st nlq raw ctx execute explainQ use_cache hschema hinvoke hclean
  unfold TextToSQLAgent.query queryBody generateSQLStep
  rw [hschema, hinvoke]
  have hv : QueryValidator.validate 5000 [] = (false, emptyMsg) := by decide
  simp [hclean, hv]

/-- Oracles whose model reply holds nothing but fence markers, for the C6
witness. -/
def c6Oracles : AgentOracles Nat :=
  { schemaContext := Except.ok "schema".data, invokeModel := Except.ok "```sql\n```".data,
    explainText := [], execQuery := fun _ => Except.ok [1], database := "db".data, now := 0 }

/-- Witness for C6 (amended): the fence-only reply becomes the empty
statement, rejected by validation with the executor never invoked. -/
theorem C6_amended_empty_generation_blocked_by_validator_witness :
    (TextToSQLAgent.query c6Oracles emptyAgentState "count users".data
        true false true true).fst.error = some (validationFailedMsg emptyMsg)
      ∧ (TextToSQLAgent.query c6Oracles emptyAgentState "count users".data
          true false true true).snd.execCalls = 0 :=
  ⟨(C6_amended_empty_generation_blocked_by_validator Nat c6Oracles emptyAgentState
      "count users".data "```sql\n```".data "schema".data true false true
      rfl rfl (by rfl)).2.1,
   (C6_amended_empty_generation_blocked_by_validator Nat c6Oracles emptyAgentState
      "count users".data "```sql\n```".data "schema".data true false true
      rfl rfl (by rfl)).2.2⟩
